import Mathlib

/-!
Verification of the two-timer PWM sound-synthesis sketches
(`bare_metal_sound_synthesis`): a shallow embedding of the
harmonics-synth sketch embedded in the repository README (globals,
`loop`, `UpdateTF`, `TCC2_0_Handler`, `TCC2_1_Handler`) together with
theorems about the parameter-control loop, the frequency/duty
conversion and the phase state machine.

Modelling conventions:
* C `float`/`double` expressions are modelled as exact rationals (ℚ).
  Every concrete input used in a theorem below evaluates to a value
  that is exactly representable in IEEE single and double precision,
  so the rational value coincides with the value the C program
  computes.
* The C `(int)` cast of a floating value is truncation toward zero,
  modelled by `cint`.
* The C conversion of an integer to `uint16_t` is reduction modulo
  2^16 (C11 6.3.1.3), modelled by `u16`.
* Machine integers (`int`, `long`) are modelled as ℤ; none of the
  quantities reachable in the theorems below approaches the width of
  those types, and every division that occurs has non-negative
  operands, where C truncating division agrees with `Int.ediv` (the
  `/` of ℤ).
* Hardware registers touched by the sketch (`TCC1->CC[0]`,
  `TCC2->PER`, `TCC2->CC[0]`) are fields of the state record; the
  `Serial` prints and the `delay` call have no effect on the modelled
  state and are omitted.
-/

namespace BareMetalSynth

/-- C `(int)` cast of a floating-point value: truncation toward zero. -/
def cint (q : ℚ) : Int := if 0 ≤ q then ⌊q⌋ else -⌊-q⌋

/-- C conversion of an integer value to `uint16_t`: reduction modulo 2^16. -/
def u16 (n : Int) : Nat := (n % 65536).toNat

/-- `const int noisefilter = 20;` — the deadband threshold. -/
def noisefilter : Int := 20

/-- One application of the deadband filter, e.g.
`if (abs(readVOLn - readVOL) > noisefilter) readVOL = readVOLn;`:
the retained filtered value is replaced by the raw sample exactly when
they differ by strictly more than `noisefilter`. -/
def deadband (filtered raw : Int) : Int :=
  if noisefilter < |raw - filtered| then raw else filtered

/-- The two phases of the overflow-driven state machine (spec §4.3).
The sketch stores the phase in the `bool harmonic`; `harmonic = true`
is the `Fundamental` phase (the next overflow enters `Harmonic` and
writes `VOL_harmonic`). -/
inductive Phase
  | Fundamental
  | Harmonic
deriving DecidableEq

/-- Program state: the globals of the README sketch plus the three
hardware registers the sketch writes while running. -/
structure SynthState where
  readHarmonicRatio : Int
  readVOL : Int
  readPulseFraction : Int
  readTF : Int
  LFO : Bool
  LFOvalue : ℚ
  harmonic_ratio : ℚ
  VOL : Int
  VOL_harmonic : Int
  TF : Int
  pulsefraction : ℚ
  count : Int
  count2 : Int
  harmonic : Bool
  time1 : Int
  /-- `TCC1->CC[0]`, the carrier duty register. -/
  tcc1_cc0 : Int
  /-- `TCC2->PER`, the modulation-timer period register. -/
  tcc2_per : Nat
  /-- `TCC2->CC[0]`, the modulation-timer compare register. -/
  tcc2_cc0 : Int

/-- The phase of the state machine, read off the `harmonic` flag. -/
def SynthState.phase (s : SynthState) : Phase :=
  if s.harmonic then Phase.Fundamental else Phase.Harmonic

/-- `if (LFO) LFOvalue = 1.0; else LFOvalue = 0.5;` (loop, line 212). -/
def LFOvalueOf (lfo : Bool) : ℚ := if lfo then 1 else 1/2

/-- `int LFOtime = (int)( 600000 * (float)(readPulseFraction / 1023.0) );`
(loop, line 193). -/
def loopLFOtime (rpf : Int) : Int := cint (600000 * ((rpf : ℚ) / 1023))

/-- `count2 += 1; if (count2 == 5) count2 = 0;` (loop, lines 199-200). -/
def loopCount2bump (c2 : Int) : Int := if c2 + 1 = 5 then 0 else c2 + 1

/-- `harmonic_ratio = (readHarmonicRatio/1023.0) * (count2 / 4.0);`
(loop, line 224). -/
def loopHarmonicRatio (rhr c2 : Int) : ℚ :=
  ((rhr : ℚ) / 1023) * ((c2 : ℚ) / 4)

/-- `VOL = (int)((float)(readVOL/1023.0) * (499.0 - (i/2 - 1)));`
(loop, line 225); `i/2` is C truncating division of the loop index. -/
def loopVOL (rv : Int) (i : Nat) : Int :=
  cint (((rv : ℚ) / 1023) * (499 - ((((i / 2 : Nat) : Int) - 1 : Int) : ℚ)))

/-- `VOL_harmonic = (int)( VOL * (float)harmonic_ratio );` (loop, line 226). -/
def loopVOLharmonic (v : Int) (hr : ℚ) : Int := cint ((v : ℚ) * hr)

/-- `TF = readTF + (120 * count) + (i * 6);` (loop, line 227). -/
def loopTF (rtf cnt : Int) (i : Nat) : Int := rtf + 120 * cnt + (i : Int) * 6

/-- `pulsefraction = (readPulseFraction/1023.0) * LFOvalue;` (loop, line 228). -/
def loopPulsefraction (rpf : Int) (lfoValue : ℚ) : ℚ :=
  ((rpf : ℚ) / 1023) * lfoValue

/-- `TCC2->CC[0].reg = (int)( TCTOP * pulsefraction );` — the
compare-tick computation of `UpdateTF` (line 276). -/
def compareTicksOf (TCTOP : Nat) (pf : ℚ) : Int := cint ((TCTOP : ℚ) * pf)

/-- `UpdateTF` (README lines 269-279): given the current
`pulsefraction` and the (already `uint16_t`-converted) argument
`newTF`, computes `TCTOPL = 12000000L / newTF - 1`, truncates it to
16 bits (`TCTOP = (uint16_t)TCTOPL`), and returns the pair of values
written to `TCC2->PER` and `TCC2->CC[0]`. -/
def UpdateTF (pulsefraction : ℚ) (newTF : Nat) : Nat × Int :=
  let TCTOPL : Int := 12000000 / (newTF : Int) - 1
  let TCTOP : Nat := u16 TCTOPL
  (TCTOP, compareTicksOf TCTOP pulsefraction)

/-- One iteration of the body of `loop` (README lines 191-230) for
inner index `i`, with the four raw sensor samples `a3 a4 a2 a0`
returned by `analogRead(A3) .. analogRead(A0)` and the current
`micros()` reading `time2`. Statements are modelled in program
order; `count` is never modified (its increments are commented out in
the source), and the handler-owned `harmonic` flag and carrier duty
register `tcc1_cc0` are not touched. -/
def loopIter (s : SynthState) (i : Nat) (a3 a4 a2 a0 : Int)
    (time2 : Int) : SynthState :=
  let time3 := time2 - s.time1
  let LFOtime := loopLFOtime s.readPulseFraction
  let LFO := if LFOtime ≤ time3 then !s.LFO else s.LFO
  let time1 := if LFOtime ≤ time3 then time2 else s.time1
  let count2 := if LFOtime ≤ time3 then loopCount2bump s.count2 else s.count2
  let LFOvalue := LFOvalueOf LFO
  let readHarmonicRatio := deadband s.readHarmonicRatio a3
  let readVOL := deadband s.readVOL a4
  let readPulseFraction := deadband s.readPulseFraction a2
  let readTF := deadband s.readTF a0
  let harmonic_ratio := loopHarmonicRatio readHarmonicRatio count2
  let VOL := loopVOL readVOL i
  let VOL_harmonic := loopVOLharmonic VOL harmonic_ratio
  let TF := loopTF readTF s.count i
  let pulsefraction := loopPulsefraction readPulseFraction LFOvalue
  let prog := UpdateTF pulsefraction (u16 TF)
  { s with
    readHarmonicRatio := readHarmonicRatio
    readVOL := readVOL
    readPulseFraction := readPulseFraction
    readTF := readTF
    LFO := LFO
    LFOvalue := LFOvalue
    harmonic_ratio := harmonic_ratio
    VOL := VOL
    VOL_harmonic := VOL_harmonic
    TF := TF
    pulsefraction := pulsefraction
    count2 := count2
    time1 := time1
    tcc2_per := prog.1
    tcc2_cc0 := prog.2 }

/-- `TCC2_0_Handler` (README lines 243-258), run once per
modulation-timer overflow event: writes `VOL_harmonic` or `VOL` to the
carrier duty register according to the `harmonic` flag and toggles the
flag. -/
def TCC2_0_Handler (s : SynthState) : SynthState :=
  if s.harmonic then
    { s with tcc1_cc0 := s.VOL_harmonic, harmonic := !s.harmonic }
  else
    { s with tcc1_cc0 := s.VOL, harmonic := !s.harmonic }

/-- `TCC2_1_Handler` (README lines 260-267), run once per
modulation-timer compare match: forces the carrier duty register to 0. -/
def TCC2_1_Handler (s : SynthState) : SynthState :=
  { s with tcc1_cc0 := 0 }

/-- The state at the end of `setup()`, from the global initialisers
(README lines 48-95) and the register writes of `setup` (lines
97-187): `VOL = 499`, `harmonic_ratio = 0.15`,
`VOL_harmonic = (int)(499 * 0.15) = 74`, `TF = 440`,
`TCTOP = 12000000/(2*440) - 1 = 13635` written to `TCC2->PER`,
`pulsefraction = 0.6`, `TCC2->CC[0] = 8181`, `TCC1->CC[0] = VOL`.
The `micros()` reading stored in `time1` is taken as time origin 0. -/
def initState : SynthState where
  readHarmonicRatio := 1
  readVOL := 1
  readPulseFraction := 1
  readTF := 1
  LFO := true
  LFOvalue := 1
  harmonic_ratio := 3/20
  VOL := 499
  VOL_harmonic := 74
  TF := 440
  pulsefraction := 3/5
  count := 0
  count2 := 0
  harmonic := true
  time1 := 0
  tcc1_cc0 := 499
  tcc2_per := 13635
  tcc2_cc0 := 8181

/-- A reachable loop state used as a concrete input: the filtered
sensor values sit at full scale and `count2` has advanced to 2. -/
def midState : SynthState :=
  { initState with
    readHarmonicRatio := 1023
    readVOL := 1023
    readPulseFraction := 1023
    readTF := 440
    count2 := 2 }

/-! ### Basic facts about the cast and filter primitives -/

lemma cint_eq_floor {q : ℚ} (h : 0 ≤ q) : cint q = ⌊q⌋ := if_pos h

lemma cint_nonneg {q : ℚ} (h : 0 ≤ q) : 0 ≤ cint q := by
  rw [cint_eq_floor h]
  exact Int.floor_nonneg.mpr h

lemma cint_le_int {q : ℚ} {n : ℤ} (h0 : 0 ≤ q) (h : q ≤ (n : ℚ)) :
    cint q ≤ n := by
  rw [cint_eq_floor h0]
  calc ⌊q⌋ ≤ ⌊(n : ℚ)⌋ := Int.floor_le_floor h
  _ = n := Int.floor_intCast n

lemma floor_half (a : ℚ) : ⌊a / 2⌋ = ⌊a⌋ / 2 := by
  have h1 : (2 : ℤ) * (⌊a⌋ / 2) ≤ ⌊a⌋ := by omega
  have h2 : ⌊a⌋ ≤ 2 * (⌊a⌋ / 2) + 1 := by omega
  have h3 : (⌊a⌋ : ℚ) ≤ a := Int.floor_le a
  have h4 : a < ⌊a⌋ + 1 := Int.lt_floor_add_one a
  rw [Int.floor_eq_iff]
  constructor
  · have hc : ((2 * (⌊a⌋ / 2) : ℤ) : ℚ) ≤ ((⌊a⌋ : ℤ) : ℚ) := by
      exact_mod_cast h1
    push_cast at hc ⊢
    linarith
  · have hc : ((⌊a⌋ : ℤ) : ℚ) ≤ ((2 * (⌊a⌋ / 2) + 1 : ℤ) : ℚ) := by
      exact_mod_cast h2
    push_cast at hc ⊢
    linarith

lemma deadband_bounds {lo hi f x : Int} (hf : lo ≤ f) (hf' : f ≤ hi)
    (hx : lo ≤ x) (hx' : x ≤ hi) :
    lo ≤ deadband f x ∧ deadband f x ≤ hi := by
  unfold deadband
  split
  · exact ⟨hx, hx'⟩
  · exact ⟨hf, hf'⟩

lemma deadband_nonneg {f x : Int} (hf : 0 ≤ f) (hx : 0 ≤ x) :
    0 ≤ deadband f x := by
  unfold deadband
  split <;> assumption

lemma deadband_foldl_const (f : Int) (l : List Int)
    (h : ∀ y ∈ l, |y - f| ≤ noisefilter) : l.foldl deadband f = f := by
  induction l with
  | nil => rfl
  | cons y t ih =>
      have h1 : deadband f y = f := by
        unfold deadband
        rw [if_neg (not_lt.mpr (h y (by simp)))]
      rw [List.foldl_cons, h1]
      exact ih fun z hz => h z (by simp [hz])

/-! ### Unfolding lemmas for `loopIter` and `UpdateTF` -/

lemma loopIter_count2 (s : SynthState) (i : Nat) (a3 a4 a2 a0 t2 : Int) :
    (loopIter s i a3 a4 a2 a0 t2).count2 =
      if loopLFOtime s.readPulseFraction ≤ t2 - s.time1 then
        loopCount2bump s.count2
      else s.count2 := rfl

lemma loopIter_LFO (s : SynthState) (i : Nat) (a3 a4 a2 a0 t2 : Int) :
    (loopIter s i a3 a4 a2 a0 t2).LFO =
      if loopLFOtime s.readPulseFraction ≤ t2 - s.time1 then !s.LFO
      else s.LFO := rfl

lemma loopIter_readVOL (s : SynthState) (i : Nat) (a3 a4 a2 a0 t2 : Int) :
    (loopIter s i a3 a4 a2 a0 t2).readVOL = deadband s.readVOL a4 := rfl

lemma loopIter_harmonic_ratio (s : SynthState) (i : Nat)
    (a3 a4 a2 a0 t2 : Int) :
    (loopIter s i a3 a4 a2 a0 t2).harmonic_ratio =
      loopHarmonicRatio (deadband s.readHarmonicRatio a3)
        (loopIter s i a3 a4 a2 a0 t2).count2 := rfl

lemma loopIter_VOL (s : SynthState) (i : Nat) (a3 a4 a2 a0 t2 : Int) :
    (loopIter s i a3 a4 a2 a0 t2).VOL = loopVOL (deadband s.readVOL a4) i := rfl

lemma loopIter_VOL_harmonic (s : SynthState) (i : Nat)
    (a3 a4 a2 a0 t2 : Int) :
    (loopIter s i a3 a4 a2 a0 t2).VOL_harmonic =
      loopVOLharmonic (loopIter s i a3 a4 a2 a0 t2).VOL
        (loopIter s i a3 a4 a2 a0 t2).harmonic_ratio := rfl

lemma loopIter_TF (s : SynthState) (i : Nat) (a3 a4 a2 a0 t2 : Int) :
    (loopIter s i a3 a4 a2 a0 t2).TF =
      loopTF (deadband s.readTF a0) s.count i := rfl

lemma loopIter_pulsefraction (s : SynthState) (i : Nat)
    (a3 a4 a2 a0 t2 : Int) :
    (loopIter s i a3 a4 a2 a0 t2).pulsefraction =
      loopPulsefraction (deadband s.readPulseFraction a2)
        (LFOvalueOf (loopIter s i a3 a4 a2 a0 t2).LFO) := rfl

lemma loopIter_tcc2_per (s : SynthState) (i : Nat) (a3 a4 a2 a0 t2 : Int) :
    (loopIter s i a3 a4 a2 a0 t2).tcc2_per =
      (UpdateTF (loopIter s i a3 a4 a2 a0 t2).pulsefraction
        (u16 (loopIter s i a3 a4 a2 a0 t2).TF)).1 := rfl

lemma loopIter_tcc2_cc0 (s : SynthState) (i : Nat) (a3 a4 a2 a0 t2 : Int) :
    (loopIter s i a3 a4 a2 a0 t2).tcc2_cc0 =
      (UpdateTF (loopIter s i a3 a4 a2 a0 t2).pulsefraction
        (u16 (loopIter s i a3 a4 a2 a0 t2).TF)).2 := rfl

lemma updateTF_cc (pf : ℚ) (tf : Nat) :
    (UpdateTF pf tf).2 = compareTicksOf (UpdateTF pf tf).1 pf := rfl

lemma updateTF_per (pf : ℚ) (tf : Nat) (h1 : 0 < tf) (h2 : tf ≤ 65535) :
    (UpdateTF pf tf).1 = (12000000 / tf - 1) % 65536 := by
  have hge : 183 ≤ 12000000 / tf := by
    rw [Nat.le_div_iff_mul_le h1]
    calc 183 * tf ≤ 183 * 65535 := Nat.mul_le_mul_left 183 h2
    _ ≤ 12000000 := by norm_num
  simp only [UpdateTF, u16]
  have hcast : ((12000000 / tf : ℕ) : ℤ) = (12000000 : ℤ) / (tf : ℤ) := by
    rw [Int.natCast_div]
    norm_num
  rw [← hcast]
  omega

lemma ovf_harmonic (s : SynthState) :
    (TCC2_0_Handler s).harmonic = !s.harmonic := by
  unfold TCC2_0_Handler
  split <;> rfl

lemma ovf_iterate_harmonic (N : Nat) (s : SynthState) :
    ((TCC2_0_Handler)^[N] s).harmonic =
      if N % 2 = 0 then s.harmonic else !s.harmonic := by
  induction N with
  | zero => simp
  | succ n ih =>
      rw [Function.iterate_succ_apply', ovf_harmonic, ih]
      by_cases hn : n % 2 = 0
      · have h1 : (n + 1) % 2 = 1 := by omega
        simp [hn, h1]
      · have h0 : (n + 1) % 2 = 0 := by omega
        simp [hn, h0]

/-! ### Claim theorems -/

/-- Claim C1, counterexample: the conversion run when the tone
frequency changes (`UpdateTF`) at `toneFrequency = 440` programs
`TCC2->PER = 12000000/440 - 1 = 27271`, not the claimed
`12000000/(2*440) - 1 = 13635`. -/
theorem C1_period_formula_cx :
    (UpdateTF (1/2) 440).1 = 27271 ∧
    12000000 / (2 * 440) - 1 = 13635 ∧ (27271 : Nat) ≠ 13635 :=
  ⟨by decide, by norm_num, by decide⟩

/-- Claim C1, amended: for every in-domain `toneFrequency`
(`184 ≤ tf ≤ 65535`), `UpdateTF` programs
`periodTicks = 12000000 / toneFrequency - 1` into the modulation
timer (the halving appears only in the startup initialiser, not in
the runtime conversion). -/
theorem C1_period_formula (pf : ℚ) (tf : Nat)
    (h1 : 184 ≤ tf) (h2 : tf ≤ 65535) :
    (UpdateTF pf tf).1 = 12000000 / tf - 1 := by
  rw [updateTF_per pf tf (by omega) h2]
  have hle : 12000000 / tf ≤ 12000000 / 184 :=
    Nat.div_le_div_left h1 (by omega)
  have h184 : (12000000 : Nat) / 184 = 65217 := by norm_num
  omega

/-- Witness for `C1_period_formula` at `toneFrequency = 440`. -/
theorem C1_period_formula_witness :
    184 ≤ 440 ∧ (440 : Nat) ≤ 65535 ∧
    (UpdateTF (1/2) 440).1 = 12000000 / 440 - 1 :=
  ⟨by decide, by decide, C1_period_formula (1/2) 440 (by decide) (by decide)⟩

/-- Claim C2 (code bug): a `toneFrequency` below the valid domain is
not clamped before the conversion.  With the startup state and a raw
pitch sample of 100, the loop sets `TF = 100`, `UpdateTF` computes
`12000000/100 - 1 = 119999`, and the wrapped value
`119999 % 65536 = 54463` is written to `TCC2->PER`: the out-of-domain
frequency propagates into a modulation-timer register write. -/
theorem C2_unclamped_frequency_write :
    (loopIter initState 0 1 1 1 100 0).TF = 100 ∧
    (loopIter initState 0 1 1 1 100 0).tcc2_per = 54463 ∧
    (12000000 : Nat) / 100 - 1 = 119999 ∧
    (54463 : Nat) = 119999 % 65536 :=
  ⟨by decide, by decide, by norm_num, by decide⟩

/-- Claim C4: the phase toggles exactly once per modulation-timer
overflow event (`TCC2_0_Handler`) and not on the compare event
(`TCC2_1_Handler`): from `Fundamental`, after `N` overflow events the
phase is `Fundamental` iff `N` is even. -/
theorem C4_phase_parity :
    (∀ (s : SynthState) (N : Nat), s.phase = Phase.Fundamental →
      ((TCC2_0_Handler)^[N] s).phase =
        if N % 2 = 0 then Phase.Fundamental else Phase.Harmonic) ∧
    ∀ s : SynthState, (TCC2_1_Handler s).phase = s.phase := by
  constructor
  · intro s N hs
    have hh : s.harmonic = true := by
      by_cases h : s.harmonic
      · exact h
      · unfold SynthState.phase at hs
        rw [if_neg h] at hs
        exact absurd hs (by decide)
    unfold SynthState.phase
    rw [ovf_iterate_harmonic, hh]
    by_cases h : N % 2 = 0 <;> simp [h]
  · intro s
    rfl

/-- Witness for `C4_phase_parity`: three overflow events from the
startup state leave the machine in the `Harmonic` phase. -/
theorem C4_phase_parity_witness :
    initState.phase = Phase.Fundamental ∧
    ((TCC2_0_Handler)^[3] initState).phase = Phase.Harmonic := by
  refine ⟨rfl, ?_⟩
  have h := C4_phase_parity.1 initState 3 rfl
  simpa using h

/-- Claim C7: the deadband filter keeps the retained value when the
sample is within `noisefilter` of it, replaces it when the delta
strictly exceeds `noisefilter`, and a whole sequence of samples each
within the deadband of the retained value leaves it unchanged. -/
theorem C7_deadband_spec :
    ∀ (f x : Int) (l : List Int),
      (|x - f| ≤ noisefilter → deadband f x = f) ∧
      (noisefilter < |x - f| → deadband f x = x) ∧
      ((∀ y ∈ l, |y - f| ≤ noisefilter) → l.foldl deadband f = f) := by
  intro f x l
  refine ⟨fun h => ?_, fun h => ?_, fun h => deadband_foldl_const f l h⟩
  · unfold deadband
    rw [if_neg (not_lt.mpr h)]
  · unfold deadband
    rw [if_pos h]

/-- Witness for `C7_deadband_spec`: a delta of exactly 20 holds the
value 100, a delta of 21 replaces it, and three in-band samples leave
it unchanged. -/
theorem C7_deadband_spec_witness :
    deadband 100 120 = 100 ∧ deadband 100 121 = 121 ∧
    List.foldl deadband 100 [90, 110, 120] = 100 :=
  ⟨(C7_deadband_spec 100 120 []).1 (by decide),
   (C7_deadband_spec 100 121 []).2.1 (by decide),
   (C7_deadband_spec 100 0 [90, 110, 120]).2.2 (by decide)⟩

/-- Claim C8: one iteration of the parameter-control loop never
writes the carrier duty register `TCC1->CC[0]` or the phase flag:
both (and hence the derived phase) are unchanged by `loopIter`. -/
theorem C8_loop_frame :
    ∀ (s : SynthState) (i : Nat) (a3 a4 a2 a0 t2 : Int),
      (loopIter s i a3 a4 a2 a0 t2).tcc1_cc0 = s.tcc1_cc0 ∧
      (loopIter s i a3 a4 a2 a0 t2).harmonic = s.harmonic ∧
      (loopIter s i a3 a4 a2 a0 t2).phase = s.phase :=
  fun _ _ _ _ _ _ _ => ⟨rfl, rfl, rfl⟩

/-- Claim C10: for every `toneFrequency` low enough that the computed
tick count `12000000/tf - 1` exceeds 65535 (exactly the frequencies
`tf ≤ 183`), `UpdateTF` neither rejects nor clamps: it programs the
tick count reduced modulo 2^16, a value strictly below the true
count. -/
theorem C10_u16_wraparound (pf : ℚ) (tf : Nat)
    (h1 : 0 < tf) (h2 : tf ≤ 65535) :
    (65535 < 12000000 / tf - 1 ↔ tf ≤ 183) ∧
    (tf ≤ 183 →
      (UpdateTF pf tf).1 = (12000000 / tf - 1) % 65536 ∧
      (UpdateTF pf tf).1 < 12000000 / tf - 1) := by
  have hper := updateTF_per pf tf h1 h2
  have h183 : (12000000 : Nat) / 183 = 65573 := by norm_num
  have h184 : (12000000 : Nat) / 184 = 65217 := by norm_num
  constructor
  · constructor
    · intro h
      by_contra hc
      have hle : 12000000 / tf ≤ 12000000 / 184 :=
        Nat.div_le_div_left (by omega) (by omega)
      omega
    · intro h
      have hge : 12000000 / 183 ≤ 12000000 / tf :=
        Nat.div_le_div_left h h1
      omega
  · intro h
    have hge : 12000000 / 183 ≤ 12000000 / tf :=
      Nat.div_le_div_left h h1
    rw [hper]
    omega

/-- Witness for `C10_u16_wraparound` at `toneFrequency = 100`:
the count 119999 wraps to the programmed period 54463. -/
theorem C10_u16_wraparound_witness :
    (0 : Nat) < 100 ∧ (100 : Nat) ≤ 65535 ∧ (100 : Nat) ≤ 183 ∧
    (UpdateTF (1/2) 100).1 = (12000000 / 100 - 1) % 65536 ∧
    (UpdateTF (1/2) 100).1 < 12000000 / 100 - 1 := by
  have h := (C10_u16_wraparound (1/2) 100 (by decide) (by decide)).2 (by decide)
  exact ⟨by decide, by decide, by decide, h.1, h.2⟩

/-- Claim C5, counterexample: at `periodTicks = 13635` (programmed by
`UpdateTF` for `toneFrequency = 880`) and `pulseFraction = 0.5` the
code writes `compareTicks = (int)(13635 * 0.5) = 6817`, while
`round(13635 × 0.5) = 6818`: the conversion truncates, it does not
round. -/
theorem C5_compare_round_cx :
    (UpdateTF (1/2) 880).1 = 13635 ∧
    (UpdateTF (1/2) 880).2 = 6817 ∧
    round ((13635 : ℚ) * (1/2)) = 6818 ∧ (6817 : Int) ≠ 6818 := by
  have h1 : (UpdateTF (1/2) 880).1 = 13635 := by decide
  refine ⟨h1, ?_, by norm_num [round_eq], by decide⟩
  rw [updateTF_cc, h1]
  norm_num [compareTicksOf, cint]

/-- Claim C5, amended: for every `toneFrequency` and every
`pulseFraction ∈ [0,1]`, `UpdateTF` computes
`compareTicks = ⌊periodTicks × pulseFraction⌋` (C truncation toward
zero), and `0 ≤ compareTicks ≤ periodTicks`. -/
theorem C5_compare_truncates (tf : Nat) (pf : ℚ)
    (h0 : 0 ≤ pf) (h1 : pf ≤ 1) :
    (UpdateTF pf tf).2 = ⌊(((UpdateTF pf tf).1 : Nat) : ℚ) * pf⌋ ∧
    0 ≤ (UpdateTF pf tf).2 ∧
    (UpdateTF pf tf).2 ≤ ((UpdateTF pf tf).1 : Int) := by
  have hT0 : (0 : ℚ) ≤ (((UpdateTF pf tf).1 : Nat) : ℚ) := by positivity
  have hprod0 : 0 ≤ (((UpdateTF pf tf).1 : Nat) : ℚ) * pf := mul_nonneg hT0 h0
  have heq : (UpdateTF pf tf).2 = ⌊(((UpdateTF pf tf).1 : Nat) : ℚ) * pf⌋ := by
    rw [updateTF_cc]
    unfold compareTicksOf
    exact cint_eq_floor hprod0
  refine ⟨heq, ?_, ?_⟩
  · rw [heq]
    exact Int.floor_nonneg.mpr hprod0
  · rw [heq]
    have hle : (((UpdateTF pf tf).1 : Nat) : ℚ) * pf ≤
        (((UpdateTF pf tf).1 : Nat) : ℚ) := mul_le_of_le_one_right hT0 h1
    calc ⌊(((UpdateTF pf tf).1 : Nat) : ℚ) * pf⌋
        ≤ ⌊(((UpdateTF pf tf).1 : Nat) : ℚ)⌋ := Int.floor_le_floor hle
    _ = ((UpdateTF pf tf).1 : Int) := Int.floor_natCast _

/-- Witness for `C5_compare_truncates` at `toneFrequency = 880`,
`pulseFraction = 1/2`. -/
theorem C5_compare_truncates_witness :
    (0 : ℚ) ≤ 1/2 ∧ (1/2 : ℚ) ≤ 1 ∧
    ((UpdateTF (1/2) 880).2 = ⌊(((UpdateTF (1/2) 880).1 : Nat) : ℚ) * (1/2)⌋ ∧
     0 ≤ (UpdateTF (1/2) 880).2 ∧
     (UpdateTF (1/2) 880).2 ≤ ((UpdateTF (1/2) 880).1 : Int)) :=
  ⟨one_half_pos.le, one_half_lt_one.le,
   C5_compare_truncates 880 (1/2) one_half_pos.le one_half_lt_one.le⟩

/-- Claim C9, counterexample: with `periodTicks = 13635` fixed and the
full pulse fraction (filtered sample 1023, `lfoScale = 1.0`) the
compare value is 13635; toggling the LFO to `lfoScale = 0.5` gives
6817, and `2 × 6817 ≠ 13635`: the resulting `compareTicks` is not
exactly halved. -/
theorem C9_lfo_halving_cx :
    compareTicksOf 13635 (loopPulsefraction 1023 (LFOvalueOf true)) = 13635 ∧
    compareTicksOf 13635 (loopPulsefraction 1023 (LFOvalueOf false)) = 6817 ∧
    (2 * 6817 : Int) ≠ 13635 := by
  refine ⟨?_, ?_, by decide⟩
  · norm_num [compareTicksOf, loopPulsefraction, LFOvalueOf, cint]
  · norm_num [compareTicksOf, loopPulsefraction, LFOvalueOf, cint]

/-- Claim C9, amended: toggling the LFO from `lfoScale = 1.0` to
`0.5` halves the effective `pulseFraction` exactly, and the resulting
`compareTicks` is the floor of half the product, i.e. the full
`compareTicks` divided by 2 with integer (floor) division — exactly
half only when the full value is even. -/
theorem C9_lfo_halving (T : Nat) (rpf : Int) (h : 0 ≤ rpf) :
    loopPulsefraction rpf (LFOvalueOf false) =
      loopPulsefraction rpf (LFOvalueOf true) * (1/2) ∧
    compareTicksOf T (loopPulsefraction rpf (LFOvalueOf false)) =
      compareTicksOf T (loopPulsefraction rpf (LFOvalueOf true)) / 2 := by
  have hp0 : (0 : ℚ) ≤ (rpf : ℚ) / 1023 :=
    div_nonneg (by exact_mod_cast h) (by norm_num)
  have hT0 : (0 : ℚ) ≤ (T : ℚ) := by positivity
  constructor
  · unfold loopPulsefraction LFOvalueOf
    norm_num
  · unfold compareTicksOf loopPulsefraction LFOvalueOf
    simp only [if_pos, if_neg, Bool.false_eq_true, not_false_iff, ite_true,
      ite_false]
    rw [cint_eq_floor (by positivity), cint_eq_floor (by positivity)]
    rw [mul_one]
    have hhalf : (T : ℚ) * ((rpf : ℚ) / 1023 * (1/2)) =
        ((T : ℚ) * ((rpf : ℚ) / 1023)) / 2 := by ring
    rw [hhalf, floor_half]

/-- Witness for `C9_lfo_halving` at `periodTicks = 13635`, filtered
pulse sample 1023. -/
theorem C9_lfo_halving_witness :
    (0 : Int) ≤ 1023 ∧
    (loopPulsefraction 1023 (LFOvalueOf false) =
       loopPulsefraction 1023 (LFOvalueOf true) * (1/2) ∧
     compareTicksOf 13635 (loopPulsefraction 1023 (LFOvalueOf false)) =
       compareTicksOf 13635 (loopPulsefraction 1023 (LFOvalueOf true)) / 2) :=
  ⟨by decide, C9_lfo_halving 13635 1023 (by decide)⟩

/-- Claim C3, counterexample: on the very first inner iteration
(`i = 0`) with a full-scale volume sample, the sweep factor
`499.0 - (0/2 - 1) = 500` makes the loop set `VOL = 500`, exceeding
the carrier top value 499. -/
theorem C3_volume_invariant_cx :
    (loopIter initState 0 1 1023 1 1 0).VOL = 500 ∧
    ¬ (loopIter initState 0 1 1023 1 1 0).VOL ≤ 499 := by
  have h : (loopIter initState 0 1 1023 1 1 0).VOL = 500 := by
    rw [loopIter_VOL]
    norm_num [initState, deadband, noisefilter, loopVOL, cint]
  refine ⟨h, ?_⟩
  rw [h]
  decide

/-- Claim C3, amended: after any loop iteration from a well-formed
state (inner index `i ≤ 999`, `count2 ∈ [0,4]`, filtered and raw
sensor values in `[0,1023]`), the state satisfies
`0 ≤ VOL_harmonic ≤ VOL ≤ 500`; the claimed upper bound
`carrierTop = 499` can be exceeded by one on iterations with
`i < 2`. -/
theorem C3_volume_invariant (s : SynthState) (i : Nat)
    (a3 a4 a2 a0 t2 : Int)
    (hi : i ≤ 999)
    (hc2 : 0 ≤ s.count2) (hc2' : s.count2 ≤ 4)
    (hrh : 0 ≤ s.readHarmonicRatio) (hrh' : s.readHarmonicRatio ≤ 1023)
    (hrv : 0 ≤ s.readVOL) (hrv' : s.readVOL ≤ 1023)
    (ha3 : 0 ≤ a3) (ha3' : a3 ≤ 1023)
    (ha4 : 0 ≤ a4) (ha4' : a4 ≤ 1023) :
    0 ≤ (loopIter s i a3 a4 a2 a0 t2).VOL_harmonic ∧
    (loopIter s i a3 a4 a2 a0 t2).VOL_harmonic ≤
      (loopIter s i a3 a4 a2 a0 t2).VOL ∧
    (loopIter s i a3 a4 a2 a0 t2).VOL ≤ 500 := by
  have hc : 0 ≤ (loopIter s i a3 a4 a2 a0 t2).count2 ∧
      (loopIter s i a3 a4 a2 a0 t2).count2 ≤ 4 := by
    rw [loopIter_count2]
    unfold loopCount2bump
    split
    · split <;> omega
    · exact ⟨hc2, hc2'⟩
  have hrh2 := deadband_bounds hrh hrh' ha3 ha3'
  have hrv2 := deadband_bounds hrv hrv' ha4 ha4'
  have hhr : 0 ≤ (loopIter s i a3 a4 a2 a0 t2).harmonic_ratio ∧
      (loopIter s i a3 a4 a2 a0 t2).harmonic_ratio ≤ 1 := by
    rw [loopIter_harmonic_ratio]
    unfold loopHarmonicRatio
    have hd0 : (0 : ℚ) ≤ (deadband s.readHarmonicRatio a3 : ℚ) / 1023 :=
      div_nonneg (by exact_mod_cast hrh2.1) (by norm_num)
    have hd1 : ((deadband s.readHarmonicRatio a3 : Int) : ℚ) / 1023 ≤ 1 := by
      rw [div_le_one (by norm_num)]
      exact_mod_cast hrh2.2
    have hq0 : (0 : ℚ) ≤ ((loopIter s i a3 a4 a2 a0 t2).count2 : ℚ) / 4 :=
      div_nonneg (by exact_mod_cast hc.1) (by norm_num)
    have hq1 : ((loopIter s i a3 a4 a2 a0 t2).count2 : ℚ) / 4 ≤ 1 := by
      rw [div_le_one (by norm_num)]
      exact_mod_cast hc.2
    exact ⟨mul_nonneg hd0 hq0, mul_le_one₀ hd1 hq0 hq1⟩
  have hV : 0 ≤ (loopIter s i a3 a4 a2 a0 t2).VOL ∧
      (loopIter s i a3 a4 a2 a0 t2).VOL ≤ 500 := by
    rw [loopIter_VOL]
    unfold loopVOL
    have hx0 : (0 : ℚ) ≤ (deadband s.readVOL a4 : ℚ) / 1023 :=
      div_nonneg (by exact_mod_cast hrv2.1) (by norm_num)
    have hx1 : ((deadband s.readVOL a4 : Int) : ℚ) / 1023 ≤ 1 := by
      rw [div_le_one (by norm_num)]
      exact_mod_cast hrv2.2
    have hkInt : (0 : Int) ≤ ((i / 2 : Nat) : Int) ∧
        ((i / 2 : Nat) : Int) ≤ 499 :=
      ⟨Int.natCast_nonneg _, by exact_mod_cast (show (i / 2 : Nat) ≤ 499 by omega)⟩
    have hcast : ((((i / 2 : Nat) : Int) - 1 : Int) : ℚ) =
        ((((i / 2 : Nat) : Int) : Int) : ℚ) - 1 := by
      push_cast
      ring
    have hkQ : (0 : ℚ) ≤ ((((i / 2 : Nat) : Int) : Int) : ℚ) ∧
        ((((i / 2 : Nat) : Int) : Int) : ℚ) ≤ 499 :=
      ⟨by exact_mod_cast hkInt.1, by exact_mod_cast hkInt.2⟩
    have hf0 : (0 : ℚ) ≤ 499 - ((((i / 2 : Nat) : Int) - 1 : Int) : ℚ) := by
      rw [hcast]
      linarith [hkQ.2]
    have hf5 : (499 : ℚ) - ((((i / 2 : Nat) : Int) - 1 : Int) : ℚ) ≤ 500 := by
      rw [hcast]
      linarith [hkQ.1]
    constructor
    · exact cint_nonneg (mul_nonneg hx0 hf0)
    · apply cint_le_int (mul_nonneg hx0 hf0)
      calc ((deadband s.readVOL a4 : Int) : ℚ) / 1023 *
            (499 - ((((i / 2 : Nat) : Int) - 1 : Int) : ℚ))
          ≤ 1 * 500 := mul_le_mul hx1 hf5 hf0 zero_le_one
      _ = ((500 : Int) : ℚ) := by norm_num
  refine ⟨?_, ?_, hV.2⟩
  · rw [loopIter_VOL_harmonic]
    unfold loopVOLharmonic
    exact cint_nonneg (mul_nonneg (by exact_mod_cast hV.1) hhr.1)
  · rw [loopIter_VOL_harmonic]
    unfold loopVOLharmonic
    apply cint_le_int (mul_nonneg (by exact_mod_cast hV.1) hhr.1)
    exact mul_le_of_le_one_right (by exact_mod_cast hV.1) hhr.2

/-- Witness for `C3_volume_invariant` at the startup state, inner
index 2, all raw samples 1. -/
theorem C3_volume_invariant_witness :
    (2 : Nat) ≤ 999 ∧ 0 ≤ initState.count2 ∧ initState.count2 ≤ 4 ∧
    (0 ≤ (loopIter initState 2 1 1 1 1 0).VOL_harmonic ∧
     (loopIter initState 2 1 1 1 1 0).VOL_harmonic ≤
       (loopIter initState 2 1 1 1 1 0).VOL ∧
     (loopIter initState 2 1 1 1 1 0).VOL ≤ 500) :=
  ⟨by decide, by decide, by decide,
   C3_volume_invariant initState 2 1 1 1 1 0 (by decide) (by decide)
     (by decide) (by decide) (by decide) (by decide) (by decide)
     (by decide) (by decide) (by decide) (by decide)⟩

/-- Claim C6, counterexample: in a reachable loop iteration with
filtered samples at full scale, `count2 = 2`, inner index `i = 2`,
the loop computes `VOL = 499` and `harmonic_ratio = 1/2`, then sets
`VOL_harmonic = (int)(499 * 0.5) = 249`, while
`round(499 × 0.5) = 250`: the recomputation truncates, it does not
round. -/
theorem C6_harmonic_volume_round_cx :
    (loopIter midState 2 1023 1023 1023 440 0).VOL = 499 ∧
    (loopIter midState 2 1023 1023 1023 440 0).harmonic_ratio = 1/2 ∧
    (loopIter midState 2 1023 1023 1023 440 0).VOL_harmonic = 249 ∧
    round ((499 : ℚ) * (1/2)) = 250 ∧ (249 : Int) ≠ 250 := by
  have hV : (loopIter midState 2 1023 1023 1023 440 0).VOL = 499 := by
    rw [loopIter_VOL]
    norm_num [midState, initState, deadband, noisefilter, loopVOL, cint]
  have hlfo : loopLFOtime midState.readPulseFraction = 600000 := by
    norm_num [midState, initState, loopLFOtime, cint]
  have hc2 : (loopIter midState 2 1023 1023 1023 440 0).count2 = 2 := by
    rw [loopIter_count2, hlfo]
    norm_num [midState, initState]
  have hhr : (loopIter midState 2 1023 1023 1023 440 0).harmonic_ratio = 1/2 := by
    rw [loopIter_harmonic_ratio, hc2]
    norm_num [midState, initState, deadband, noisefilter, loopHarmonicRatio]
  refine ⟨hV, hhr, ?_, by norm_num [round_eq], by decide⟩
  rw [loopIter_VOL_harmonic, hV, hhr]
  norm_num [loopVOLharmonic, cint]

/-- Claim C6, amended: from any well-formed state (inner index
`i ≤ 999`, non-negative `count2` and sensor values), each loop
iteration recomputes `harmonicVolume` as
`⌊volume × harmonicRatio⌋` (C truncation toward zero), not as the
rounding of that product. -/
theorem C6_harmonic_volume_truncates (s : SynthState) (i : Nat)
    (a3 a4 a2 a0 t2 : Int)
    (hi : i ≤ 999) (hc2 : 0 ≤ s.count2)
    (hrh : 0 ≤ s.readHarmonicRatio) (ha3 : 0 ≤ a3)
    (hrv : 0 ≤ s.readVOL) (ha4 : 0 ≤ a4) :
    (loopIter s i a3 a4 a2 a0 t2).VOL_harmonic =
      ⌊((loopIter s i a3 a4 a2 a0 t2).VOL : ℚ) *
        (loopIter s i a3 a4 a2 a0 t2).harmonic_ratio⌋ := by
  have hc0 : 0 ≤ (loopIter s i a3 a4 a2 a0 t2).count2 := by
    rw [loopIter_count2]
    unfold loopCount2bump
    split
    · split <;> omega
    · exact hc2
  have hhr0 : 0 ≤ (loopIter s i a3 a4 a2 a0 t2).harmonic_ratio := by
    rw [loopIter_harmonic_ratio]
    unfold loopHarmonicRatio
    apply mul_nonneg
    · exact div_nonneg (by exact_mod_cast deadband_nonneg hrh ha3) (by norm_num)
    · exact div_nonneg (by exact_mod_cast hc0) (by norm_num)
  have hV0 : 0 ≤ (loopIter s i a3 a4 a2 a0 t2).VOL := by
    rw [loopIter_VOL]
    unfold loopVOL
    apply cint_nonneg
    apply mul_nonneg
    · exact div_nonneg (by exact_mod_cast deadband_nonneg hrv ha4) (by norm_num)
    · have hkInt : ((i / 2 : Nat) : Int) ≤ 499 := by
        exact_mod_cast (show (i / 2 : Nat) ≤ 499 by omega)
      have hkQ : ((((i / 2 : Nat) : Int) : Int) : ℚ) ≤ 499 := by
        exact_mod_cast hkInt
      have hcast : ((((i / 2 : Nat) : Int) - 1 : Int) : ℚ) =
          ((((i / 2 : Nat) : Int) : Int) : ℚ) - 1 := by
        push_cast
        ring
      rw [hcast]
      linarith
  rw [loopIter_VOL_harmonic]
  unfold loopVOLharmonic
  exact cint_eq_floor (mul_nonneg (by exact_mod_cast hV0) hhr0)

/-- Witness for `C6_harmonic_volume_truncates` at the startup state,
inner index 2, all raw samples 1. -/
theorem C6_harmonic_volume_truncates_witness :
    (2 : Nat) ≤ 999 ∧ 0 ≤ initState.count2 ∧
    (loopIter initState 2 1 1 1 1 0).VOL_harmonic =
      ⌊((loopIter initState 2 1 1 1 1 0).VOL : ℚ) *
        (loopIter initState 2 1 1 1 1 0).harmonic_ratio⌋ :=
  ⟨by decide, by decide,
   C6_harmonic_volume_truncates initState 2 1 1 1 1 0 (by decide) (by decide)
     (by decide) (by decide) (by decide) (by decide)⟩

end BareMetalSynth
